import Mathlib

/-!
Verification development for the RoversSalesBot repository.

This file gives a shallow embedding, in Lean 4, of the parts of
`src/bot.py` and `src/sales_fetcher.py` that the specification's testable
claims are about:

* `format_price` and `get_sweep_category` (bot.py);
* `download_image` (sales_fetcher.py), modelled as a pure function of the
  HTTP response it observes;
* `process_webhook_events_grouped` (bot.py), modelled as a pure state
  transformer over the `processed_sales` set, with the Discord client and
  the image pipeline abstracted behind an environment record (the spec
  treats the chat platform as an external collaborator);
* `_get_transaction_price_simple` (sales_fetcher.py), modelled as a pure
  function of an environment record holding the responses of the four RPC
  queries the function can issue.  `_rpc_call` catches every exception and
  returns an empty dict, so an RPC failure is modelled as `none` / `[]`,
  never as a raised exception.

Machine integers are `Int` / `Nat` (Python integers are unbounded, so no
modular wrap is needed).  Python `int(s, 16)` / `int(s)` are modelled by
`pyIntHex?` / `pyIntDec?`: optional sign, optional `0x` prefix (hex only),
then digits; the rarely relevant surrounding-whitespace and underscore
forms are not modelled.  Python exceptions are modelled by `Option`
results at the call sites that can raise, mirroring the source's
`try`/`except` structure.
-/

namespace RoversSalesBot

/-! ### Python string and integer primitives -/

/-- Python `str.lower()` restricted to its ASCII behaviour (all strings
handled by the bot are ASCII hex strings and addresses): lowercase every
character. -/
def pyLower (s : String) : String := String.mk (s.data.map Char.toLower)

/-- Hex digit test, as accepted by Python `int(_, 16)`. -/
def isHexDigitChar (c : Char) : Bool :=
  (('0' ≤ c && c ≤ '9') || ('a' ≤ c && c ≤ 'f') || ('A' ≤ c && c ≤ 'F'))

/-- Value of one hex digit. -/
def hexDigitVal (c : Char) : Nat :=
  if '0' ≤ c && c ≤ '9' then c.toNat - '0'.toNat
  else if 'a' ≤ c && c ≤ 'f' then c.toNat - 'a'.toNat + 10
  else if 'A' ≤ c && c ≤ 'F' then c.toNat - 'A'.toNat + 10
  else 0

/-- Parse a nonempty all-hex-digit character list as a natural number. -/
def parseHexNat? (cs : List Char) : Option Nat :=
  if cs ≠ [] && cs.all isHexDigitChar then
    some (cs.foldl (fun acc c => 16 * acc + hexDigitVal c) 0)
  else none

/-- Decimal digit test. -/
def isDecDigitChar (c : Char) : Bool := '0' ≤ c && c ≤ '9'

/-- Parse a nonempty all-decimal-digit character list as a natural number. -/
def parseDecNat? (cs : List Char) : Option Nat :=
  if cs ≠ [] && cs.all isDecDigitChar then
    some (cs.foldl (fun acc c => 10 * acc + (c.toNat - '0'.toNat)) 0)
  else none

/-- Python `int(s, 16)`: optional sign, optional `0x`/`0X` prefix, then at
least one hex digit.  `none` models the raised `ValueError`. -/
def pyIntHex? (s : String) : Option Int :=
  let (sign, rest) : Int × List Char :=
    match s.data with
    | '-' :: r => (-1, r)
    | '+' :: r => (1, r)
    | r => (1, r)
  let digits : List Char :=
    match rest with
    | '0' :: 'x' :: r => r
    | '0' :: 'X' :: r => r
    | r => r
  (parseHexNat? digits).map (fun n => sign * (n : Int))

/-- Python `int(s)` (base 10): optional sign then at least one decimal
digit.  `none` models the raised `ValueError`. -/
def pyIntDec? (s : String) : Option Int :=
  let (sign, rest) : Int × List Char :=
    match s.data with
    | '-' :: r => (-1, r)
    | '+' :: r => (1, r)
    | r => (1, r)
  (parseDecNat? rest).map (fun n => sign * (n : Int))

/-- Python `s[-n:]`: the last `n` characters of `s` (all of `s` when it is
shorter). -/
def takeLastChars (n : Nat) (s : String) : String :=
  String.mk (s.data.drop (s.data.length - n))

/-- Python `pat in s` substring containment. -/
def containsSub (s pat : String) : Bool := decide (pat.data <:+: s.data)

/-- Python `s.startswith("0x")` (written over the character list so that
it evaluates by kernel reduction). -/
def startsWith0x (s : String) : Bool :=
  match s.data with
  | '0' :: 'x' :: _ => true
  | _ => false

/-! ### `format_price` (src/bot.py, lines 86-110)

The source divides by `10**18` using `decimal.Decimal` (never a binary
float) and calls `round(eth_value, 4)`, which for `Decimal` quantizes with
the default ROUND_HALF_EVEN mode.  The `Decimal` division is exact for
every amount below 10^28 wei (28 significant digits, the default context
precision), which covers every amount the claims quantify over; the model
computes the exact half-even rounding of `price_wei / 10^18` to four
decimal places as an integer number of 10^-4 units. -/

/-- `round(Decimal(price_wei) / Decimal(10**18), 4)`, returned as an
integer count of 10^-4 ETH units (half-even rounding). -/
def round4HalfEven (price_wei : Nat) : Nat :=
  let num := price_wei * 10000
  let q := num / (10 ^ 18)
  let r := num % (10 ^ 18)
  if 2 * r < 10 ^ 18 then q
  else if 10 ^ 18 < 2 * r then q + 1
  else if q % 2 = 0 then q else q + 1

/-- `f"{eth_value:.4f}"`: render a count of 10^-4 units with exactly four
digits after the decimal point. -/
def render4 (n : Nat) : String :=
  let frac := toString (n % 10000)
  toString (n / 10000) ++ "." ++
    String.mk (List.replicate (4 - frac.length) '0') ++ frac

/-- `price_str.rstrip('0').rstrip('.')`. -/
def stripTrailing0Dot (s : String) : String :=
  String.mk (((s.data.reverse.dropWhile (· = '0')).dropWhile (· = '.')).reverse)

/-- `format_price` from src/bot.py: zero formats as `"0 ETH"`; otherwise
divide by 10^18, round half-even to four decimals, render with four
decimals, strip trailing zeros then a trailing dot, and append the
currency symbol. -/
def format_price (price_wei : Nat) (is_weth : Bool) : String :=
  if price_wei = 0 then "0 ETH"
  else
    let price_str := stripTrailing0Dot (render4 (round4HalfEven price_wei))
    price_str ++ " " ++ (if is_weth then "WETH" else "ETH")

/-! ### `get_sweep_category` (src/bot.py, lines 113-130) -/

/-- `get_sweep_category` from src/bot.py: category label and embed colour
from the token count. -/
def get_sweep_category (token_count : Nat) : String × Nat :=
  if token_count = 1 then ("Single NFT Sale", 0x3498db)
  else if token_count ≤ 5 then ("Mini Sweep", 0x2ecc71)
  else if token_count ≤ 10 then ("Big Sweep", 0xe67e22)
  else ("Huge Sweep", 0xe74c3c)

/-! ### `download_image` (src/sales_fetcher.py, lines 1373-1463)

The coroutine is modelled as a pure function of the URL it was given and
the HTTP response it observes.  A network/timeout exception (caught by the
outer `except`, returning `None`) is modelled by passing `none` for the
response.  Bytes are natural numbers below 256; the streamed body arrives
as a list of chunks, accumulated exactly as the source does with the
8 MiB abort check after each chunk. -/

/-- An observed HTTP response: status code, `Content-Type` header (the
`.get('Content-Type', '')` default folded in), and the streamed body
chunks. -/
structure HttpResponse where
  status : Nat
  contentType : String
  chunks : List (List Nat)
deriving DecidableEq

/-- The 8 MiB hard cap from `download_image`. -/
def maxImageSize : Nat := 8 * 1024 * 1024

/-- The chunk-accumulation loop of `download_image`: append each chunk and
abort with `none` as soon as the accumulated size exceeds 8 MiB. -/
def accumChunks : List (List Nat) → List Nat → Option (List Nat)
  | [], acc => some acc
  | c :: cs, acc =>
      if maxImageSize < (acc ++ c).length then none else accumChunks cs (acc ++ c)

/-- MP4 magic-number prefix checked by the source (`\x00\x00\x00\x18ftyp`). -/
def mp4Magic : List Nat := [0x00, 0x00, 0x00, 0x18, 0x66, 0x74, 0x79, 0x70]

/-- WebM magic-number prefix checked by the source (`\x1a\x45\xdf\xa3`). -/
def webmMagic : List Nat := [0x1a, 0x45, 0xdf, 0xa3]

/-- The `is_video_file` detection of `download_image`: video content-type,
MP4/WebM magic bytes, or a video file extension in the URL. -/
def isVideoFile (contentType url : String) (data : List Nat) : Bool :=
  containsSub (pyLower contentType) "video" ||
  (mp4Magic.isPrefixOf data || webmMagic.isPrefixOf data) ||
  [".mp4", ".webm", ".mov", ".avi", ".mkv"].any
    (fun ext => containsSub (pyLower url) ext)

/-- The post-download validation chain of `download_image`: reject a
video content-type, an implausibly small body (< 100 bytes), and the
`is_video_file` detection, in source order. -/
def checkBody (contentType image_url : String) (image_data : List Nat) :
    Option (List Nat) :=
  if containsSub (pyLower contentType) "video" then none
  else if image_data.length < 100 then none
  else if isVideoFile contentType image_url image_data then none
  else some image_data

/-- `download_image` from src/sales_fetcher.py as a function of the
observed response.  Returns `none` on any non-200 status, on a
network/timeout exception (`resp? = none`), when the accumulated body
exceeds 8 MiB, and on every `checkBody` rejection; otherwise the full
body bytes. -/
def download_image (image_url : String) (resp? : Option HttpResponse) :
    Option (List Nat) :=
  match resp? with
  | none => none
  | some resp =>
    if resp.status = 200 then
      (accumChunks resp.chunks []).bind (checkBody resp.contentType image_url)
    else none

/-! ### `process_webhook_events_grouped` (src/bot.py, lines 276-596)

The coroutine is modelled as a pure state transformer over the global
`processed_sales` set (a list of lowercased transaction hashes; Python
`set.add` is insertion at the head).  The spec treats the Discord client
as an external collaborator, so channel lookup, embed composition, the
image-attachment pipeline and the actual `send` are abstracted behind a
`BotEnv` record: the function's observable output is the `SaleEvent`
payload it published (`none` when nothing was posted).  Python's `set`
iterates in an unspecified order; `list(buyers)[0]` / `list(sellers)[0]`
are modelled as the first address in event order, which no claim depends
on. -/

/-- `SaleEvent` from src/sales_fetcher.py (the `timestamp` field is always
`None` on this code path and is omitted). -/
structure SaleEvent where
  tx_hash : String
  buyer : String
  seller : String
  token_id : Option String
  token_ids : Option (List String)
  token_count : Nat
  total_price : Int
  is_weth : Bool
deriving DecidableEq

/-- One parsed webhook activity record, with the nested dictionary lookups
of the source flattened into optional fields (`none` models a missing
key). `erc721TokenId?` is `some t` when `event.erc721Metadata` is present
with `tokenId` `t` (a present metadata object with no `tokenId` is
`some ""`, the source's `.get("tokenId", "")` default). -/
structure WebhookEvent where
  logAddress? : Option String
  contractAddress? : Option String
  fromAddress? : Option String
  toAddress? : Option String
  erc721TokenId? : Option String
  erc1155TokenIds : List String
  topTokenId? : Option String
deriving DecidableEq

/-- The zero/burn address constant from the source. -/
def zeroAddress : String := "0x0000000000000000000000000000000000000000"

/-- The contract-address extraction:
`e.get("log", {}).get("address", "").lower() or e.get("contractAddress", "").lower()`
(Python `or` takes the second operand when the first is the empty
string). -/
def effectiveContract (e : WebhookEvent) : String :=
  let a := pyLower (e.logAddress?.getD "")
  if a = "" then pyLower (e.contractAddress?.getD "") else a

/-- The mint/burn filter: skip the event when its sender or recipient is
the zero address. -/
def isMintOrBurn (e : WebhookEvent) : Bool :=
  pyLower (e.fromAddress?.getD "") = zeroAddress ||
  pyLower (e.toAddress?.getD "") = zeroAddress

/-- The token-id extraction cascade: ERC-721 metadata, then the first
ERC-1155 metadata entry, then the top-level `tokenId`; a hex-prefixed id
is converted to a decimal string, kept as-is when the conversion raises
`ValueError`; an empty result yields no token id. -/
def extractTokenId (e : WebhookEvent) : Option String :=
  let t1 := e.erc721TokenId?.getD ""
  let t2 := if t1 ≠ "" then t1 else e.erc1155TokenIds.headD ""
  let t3 := if t2 ≠ "" then t2 else e.topTokenId?.getD ""
  if t3 ≠ "" then
    if startsWith0x t3 then
      match pyIntHex? t3 with
      | some n => some (toString n)
      | none => some t3
    else some t3
  else none

/-- The collaborators of one aggregation call: the price-resolver result
for this transaction and the behaviour of the messaging sink.  `sendOk`
is true when the channel was available and `channel.send` succeeded (a
raised Discord exception is caught and still falls through to the
processed-set update). -/
structure BotEnv where
  price : Int × Bool
  sendOk : Bool

/-- The contract-matching events with mint/burn events dropped. -/
def keptEvents (contract_events : List WebhookEvent) : List WebhookEvent :=
  contract_events.filter (fun e => !isMintOrBurn e)

/-- The extracted, normalized token-id sequence of the kept events. -/
def tokenIdsOf (contract_events : List WebhookEvent) : List String :=
  (keptEvents contract_events).filterMap extractTokenId

/-- First collected buyer address (`list(buyers)[0] if buyers else ""`). -/
def buyerOf (contract_events : List WebhookEvent) : String :=
  ((keptEvents contract_events).map (fun e => pyLower (e.toAddress?.getD ""))).headD ""

/-- First collected seller address (`list(sellers)[0] if sellers else ""`). -/
def sellerOf (contract_events : List WebhookEvent) : String :=
  ((keptEvents contract_events).map (fun e => pyLower (e.fromAddress?.getD ""))).headD ""

/-- The `SaleEvent` constructed for one grouped transaction. -/
def saleOf (tx_hash : String) (contract_events : List WebhookEvent)
    (price : Int × Bool) : SaleEvent :=
  { tx_hash := tx_hash
    buyer := buyerOf contract_events
    seller := sellerOf contract_events
    token_id := match tokenIdsOf contract_events with | [t] => some t | _ => none
    token_ids := if 1 < (tokenIdsOf contract_events).length
                 then some (tokenIdsOf contract_events) else none
    token_count := (tokenIdsOf contract_events).length
    total_price := price.1
    is_weth := price.2 }

/-- `process_webhook_events_grouped` from src/bot.py: skip an
already-processed transaction id (lowercased); keep only events whose
contract address matches the configured contract; drop mint/burn events;
extract and normalize token ids; if any remain, resolve the price, build
the `SaleEvent`, post it, and record the lowercased transaction id as
processed.  Returns the published payload (if any) and the new processed
set. -/
def process_webhook_events_grouped (nftContract : String)
    (processed : List String) (env : BotEnv) (tx_hash : String)
    (events : List WebhookEvent) : Option SaleEvent × List String :=
  if pyLower tx_hash ∈ processed then (none, processed)
  else
    let contract_events := events.filter (fun e => effectiveContract e = nftContract)
    if contract_events = [] then (none, processed)
    else if tokenIdsOf contract_events = [] then (none, processed)
    else
      ((if env.sendOk then some (saleOf tx_hash contract_events env.price) else none),
        pyLower tx_hash :: processed)

/-! ### `_get_transaction_price_simple` (src/sales_fetcher.py, lines 284-588)

The resolver is modelled as a pure function of an environment holding the
responses of the RPC queries it can issue.  `_rpc_call` catches every
network error and returns `{}` (falsy), so `get_transaction` /
`get_transaction_receipt` responses are `Option` values (`none` for a
missing or failed lookup) and each `get_asset_transfers` response is the
plain transfer list (`.get("transfers", [])` folded in).  The function
issues at most three distinct `get_asset_transfers` queries — strategy 1
(buyer→seller, ±100 blocks), strategy 1b (from buyer, −1000/+100 blocks)
and strategy 2 (±20 block range, no address filter) — held in
`directTransfers`, `buyerTransfers` and `rangeTransfers` respectively.
The only exceptions not caught by an inner handler are the `int(...)`
failures on the transaction's `value` and `blockNumber` fields, which the
outermost `except` converts to `(0, False)`; the model returns that pair
directly at those two sites. -/

/-- The relevant fields of an `eth_getTransactionByHash` response. -/
structure EthTx where
  value? : Option String
  blockNumber? : Option String
deriving DecidableEq

/-- One receipt log entry: emitting contract address (`.get("address", "")`
folded in), topics, and data payload. -/
structure EthLog where
  address : String
  topics : List String
  data? : Option String
deriving DecidableEq

/-- The relevant fields of an `eth_getTransactionReceipt` response: a
falsy or absent `logs` entry is the empty list. -/
structure EthReceipt where
  logs : List EthLog
deriving DecidableEq

/-- One `alchemy_getAssetTransfers` entry, fields optional as in the
source's `.get(...)` accesses. -/
structure AssetTransfer where
  hash? : Option String
  fromAddr? : Option String
  toAddr? : Option String
  value? : Option String
  blockNum? : Option String
deriving DecidableEq

/-- The RPC responses observed by one resolver call. -/
structure PriceEnv where
  tx? : Option EthTx
  receipt? : Option EthReceipt
  directTransfers : List AssetTransfer
  buyerTransfers : List AssetTransfer
  rangeTransfers : List AssetTransfer
deriving DecidableEq

/-- The WETH contract address (module constant, already lowercase). -/
def WETH_CONTRACT : String := "0xc02aaa39b223fe8d0a0e5c4f27ead9083c756cc2"

/-- keccak256("Transfer(address,address,uint256)"), the ERC-20 Transfer
event topic compared against `topics[0]`. -/
def transferEventTopic : String :=
  "0xddf252ad1be2c89b69c2b068fc378daa952ba7f163c4a11628f55a4df523b3ef"

/-- `seller_address.lower() if seller_address else None` (the empty string
is falsy). -/
def normAddr (a? : Option String) : Option String :=
  match a? with
  | some a => if a = "" then none else some (pyLower a)
  | none => none

/-- `(if eth_value_hex != "0x0" else 0)` wrapped with the `int(_, 16)`
parse; `none` models the `ValueError` that escapes to the outermost
handler. -/
def ethValueOf (tx : EthTx) : Option Int :=
  if tx.value?.getD "0x0" = "0x0" then some 0 else pyIntHex? (tx.value?.getD "0x0")

/-- `int(transfer_block, 16) if transfer_block.startswith("0x") else
int(transfer_block)`. -/
def pyParseBlock (s : String) : Option Int :=
  if startsWith0x s then pyIntHex? s else pyIntDec? s

/-- One decoded WETH Transfer log of strategy 0 (addresses stored
lowercased, as in `all_weth_transfers`). -/
structure WethTransfer where
  fromA : String
  toA : String
  amount : Int
deriving DecidableEq

/-- Strategy 0's per-log decoding: a WETH-contract log with at least three
topics whose first topic is the Transfer signature yields sender,
recipient (last 40 characters when the topic is long enough) and amount
(`int(data, 16)`, 0 on a parse failure or on the `"0x0"` default). -/
def decodeWethLog (log : EthLog) : Option WethTransfer :=
  if pyLower log.address = WETH_CONTRACT then
    match log.topics with
    | t0 :: t1 :: t2 :: _ =>
      if pyLower t0 = transferEventTopic then
        let from_addr := if 42 ≤ t1.length then "0x" ++ takeLastChars 40 t1 else t1
        let to_addr := if 42 ≤ t2.length then "0x" ++ takeLastChars 40 t2 else t2
        let value_hex := log.data?.getD "0x0"
        let amount := if value_hex = "0x0" then 0 else (pyIntHex? value_hex).getD 0
        some ⟨pyLower from_addr, pyLower to_addr, amount⟩
      else none
    | _ => none
  else none

/-- Strategy 0's `all_weth_transfers`: every decoded WETH transfer with a
positive amount. -/
def strategy0All (logs : List EthLog) : List WethTransfer :=
  (logs.filterMap decodeWethLog).filter (fun w => decide (0 < w.amount))

/-- Strategy 0's seller accumulation: sum the positive decoded amounts
whose recipient is the seller (0 when no seller is known). -/
def strategy0SellerTotal (seller? : Option String) (logs : List EthLog) : Int :=
  match seller? with
  | none => 0
  | some s =>
    (logs.filterMap decodeWethLog).foldl
      (fun acc w => if w.toA = s ∧ 0 < w.amount then acc + w.amount else acc) 0

/-- Python `max(all_weth_transfers, key=amount)["amount"]` (total
extension: 0 on the empty list, which the source guards against). -/
def maxAmount : List WethTransfer → Int
  | [] => 0
  | w :: ws => max (maxAmount ws) w.amount

/-- Strategy 0's result: the seller-matched total, falling back to the
largest decoded transfer when nothing went to the seller. -/
def strategy0Total (seller? : Option String) (logs : List EthLog) : Int :=
  if strategy0SellerTotal seller? logs = 0 ∧ strategy0All logs ≠ [] then
    maxAmount (strategy0All logs)
  else strategy0SellerTotal seller? logs

/-- Strategy 1b's append filter: the transfer is kept when its value
parses (a `ValueError` skips the iteration) and its recipient is the
seller. -/
def strat1bKeep (seller : String) (t : AssetTransfer) : Bool :=
  let v := t.value?.getD "0x0"
  (if v = "0x0" then true else (pyIntHex? v).isSome) &&
    pyLower (t.toAddr?.getD "") = seller

/-- The assembled `transfers_list`: strategy 1's direct buyer→seller
transfers (only when both addresses are known); strategy 1b's
seller-recipient transfers out of the first five from-buyer transfers
(only when strategy 1 found nothing); then the strategy 2 block-range
transfers, each appended only when its hash (lowercased) is not already
present. -/
def transfersList (env : PriceEnv) (seller? buyer? : Option String) :
    List AssetTransfer :=
  let direct : List AssetTransfer :=
    match buyer?, seller? with
    | some _, some _ => env.directTransfers
    | _, _ => []
  let strat1b : List AssetTransfer :=
    match buyer?, seller? with
    | some _, some s =>
      if direct = [] then (env.buyerTransfers.take 5).filter (strat1bKeep s) else []
    | _, _ => []
  env.rangeTransfers.foldl
    (fun acc t =>
      if acc.any (fun u => pyLower (u.hash?.getD "") = pyLower (t.hash?.getD ""))
      then acc else acc ++ [t])
    (direct ++ strat1b)

/-- The final-loop contribution of one transfer: match by exact
transaction hash (recipient must be the seller when one is known), else
by buyer→seller addresses (counted when within 5 blocks, when the block
fails to parse, or when no block is given), else by seller-recipient
alone (counted only within 5 parseable blocks); every match adds its
amount to the running total. -/
def transferContribution (tx_hash : String) (seller? buyer? : Option String)
    (block_num : Int) (t : AssetTransfer) : Int :=
  let transfer_hash := t.hash?.getD ""
  let transfer_from := pyLower (t.fromAddr?.getD "")
  let transfer_to := pyLower (t.toAddr?.getD "")
  let transfer_block := t.blockNum?.getD ""
  let value_hex := t.value?.getD "0x0"
  if value_hex ≠ "" ∧ value_hex ≠ "0x0" then
    match pyIntHex? value_hex with
    | none => 0
    | some weth_amount =>
      if transfer_hash ≠ "" ∧ pyLower transfer_hash = pyLower tx_hash then
        match seller? with
        | some s => if transfer_to = s then weth_amount else 0
        | none => weth_amount
      else
        match seller?, buyer? with
        | some s, some b =>
          if transfer_from = b ∧ transfer_to = s then
            if transfer_block ≠ "" then
              match pyParseBlock transfer_block with
              | some tbn => if (tbn - block_num).natAbs ≤ 5 then weth_amount else 0
              | none => weth_amount
            else weth_amount
          else 0
        | some s, none =>
          if transfer_to = s then
            if transfer_block ≠ "" then
              match pyParseBlock transfer_block with
              | some tbn => if (tbn - block_num).natAbs ≤ 5 then weth_amount else 0
              | none => 0
            else 0
          else 0
        | none, _ => 0
  else 0

/-- The final matching loop over `transfers_list`, accumulating
`weth_total`. -/
def mainLoopTotal (tx_hash : String) (seller? buyer? : Option String)
    (block_num : Int) (ts : List AssetTransfer) : Int :=
  ts.foldl (fun acc t => acc + transferContribution tx_hash seller? buyer? block_num t) 0

/-- `_get_transaction_price_simple` from src/sales_fetcher.py: the
ordered strategy cascade.  A missing transaction, a `ValueError` on the
value or block-number field, a falsy block number, or an all-strategies
miss yields `(0, false)`; a positive native value short-circuits as
`(value, false)`; a positive strategy-0 total returns `(total, true)`;
otherwise a positive final-loop total returns `(total, true)`. -/
def _get_transaction_price_simple (env : PriceEnv) (tx_hash : String)
    (seller_address buyer_address : Option String) : Int × Bool :=
  match env.tx? with
  | none => (0, false)
  | some tx =>
    match ethValueOf tx with
    | none => (0, false)
    | some eth_value =>
      if 0 < eth_value then (eth_value, false)
      else
        match tx.blockNumber? with
        | none => (0, false)
        | some block_hex =>
          if block_hex = "" then (0, false)
          else
            match pyIntHex? block_hex with
            | none => (0, false)
            | some block_num =>
              let seller_lower := normAddr seller_address
              let buyer_lower := normAddr buyer_address
              let weth0 : Int :=
                match env.receipt? with
                | none => 0
                | some receipt => strategy0Total seller_lower receipt.logs
              if 0 < weth0 then (weth0, true)
              else
                let weth_total := mainLoopTotal tx_hash seller_lower buyer_lower
                  block_num (transfersList env seller_lower buyer_lower)
                if 0 < weth_total then (weth_total, true) else (0, false)

/-! ### Claims C5, C9, C10 -/

/-- Claim C5: `format_price` divides the smallest-unit amount by 10^18
exactly (via `Decimal`, never a binary float), rounds to at most 4 decimal
places, and strips trailing zero digits and a trailing decimal point:
1000000000000000000 formats as "1 ETH" (resp. "1 WETH"), 6200000000000000
formats as "0.0062" followed by the currency symbol, and a zero amount
formats as "0 ETH". -/
theorem claim_C5_format_price_round_trip :
    format_price 1000000000000000000 false = "1 ETH" ∧
    format_price 1000000000000000000 true = "1 WETH" ∧
    format_price 6200000000000000 false = "0.0062 ETH" ∧
    format_price 6200000000000000 true = "0.0062 WETH" ∧
    format_price 0 false = "0 ETH" ∧
    format_price 0 true = "0 ETH" := by
  refine ⟨?_, ?_, ?_, ?_, ?_, ?_⟩ <;> decide

/-- Claim C9: `get_sweep_category` maps a token count of 1 to the
single-sale category, 2-5 to "Mini Sweep", 6-10 to "Big Sweep" (so 10 is
still "Big Sweep"), and 11 and above to "Huge Sweep"; the four display
colours are pairwise distinct. -/
theorem claim_C9_sweep_category_boundaries (n : Nat) :
    (n = 1 → get_sweep_category n = ("Single NFT Sale", 0x3498db)) ∧
    (2 ≤ n → n ≤ 5 → get_sweep_category n = ("Mini Sweep", 0x2ecc71)) ∧
    (6 ≤ n → n ≤ 10 → get_sweep_category n = ("Big Sweep", 0xe67e22)) ∧
    (11 ≤ n → get_sweep_category n = ("Huge Sweep", 0xe74c3c)) ∧
    ([0x3498db, 0x2ecc71, 0xe67e22, 0xe74c3c] : List Nat).Nodup := by
  refine ⟨?_, ?_, ?_, ?_, by decide⟩
  · intro h; subst h; decide
  · intro h2 h5
    unfold get_sweep_category
    rw [if_neg (by omega), if_pos (by omega)]
  · intro h6 h10
    unfold get_sweep_category
    rw [if_neg (by omega), if_neg (by omega), if_pos (by omega)]
  · intro h11
    unfold get_sweep_category
    rw [if_neg (by omega), if_neg (by omega), if_neg (by omega)]

/-- Witness for claim C9 at the boundary count 10. -/
theorem claim_C9_sweep_category_boundaries_witness :
    6 ≤ 10 ∧ 10 ≤ 10 ∧ get_sweep_category 10 = ("Big Sweep", 0xe67e22) :=
  ⟨by decide, by decide,
    (claim_C9_sweep_category_boundaries 10).2.2.1 (by decide) (by decide)⟩

/-- Claim C10: every positive amount strictly below 5·10^13 wei (0.00005
of a whole unit) rounds to 0.0000 and is rendered with numeric part "0"
("0 ETH" or "0 WETH"), so for the native currency a genuinely positive
price displays identically to the `(0, false)` price-undetermined
sentinel. -/
theorem claim_C10_tiny_price_displays_as_zero (p : Nat) (w : Bool)
    (hpos : 0 < p) (hsmall : p < 5 * 10 ^ 13) :
    format_price p w = (if w then "0 WETH" else "0 ETH") ∧
    format_price p false = format_price 0 false := by
  have h13 : p < 50000000000000 := by
    have : (5 : Nat) * 10 ^ 13 = 50000000000000 := by norm_num
    omega
  have hround : round4HalfEven p = 0 := by
    unfold round4HalfEven
    rw [show (10 : Nat) ^ 18 = 1000000000000000000 from by norm_num]
    have hlt : 2 * (p * 10000 % 1000000000000000000) < 1000000000000000000 := by
      omega
    rw [if_pos hlt]
    omega
  have hmain : ∀ b : Bool, format_price p b = (if b then "0 WETH" else "0 ETH") := by
    intro b
    unfold format_price
    rw [if_neg (by omega), hround]
    cases b <;> rfl
  refine ⟨hmain w, ?_⟩
  rw [hmain false]
  rfl

/-- Witness for claim C10 at one wei. -/
theorem claim_C10_tiny_price_displays_as_zero_witness :
    0 < 1 ∧ 1 < 5 * 10 ^ 13 ∧
      (format_price 1 true = "0 WETH" ∧ format_price 1 false = format_price 0 false) :=
  ⟨by decide, by norm_num,
    claim_C10_tiny_price_displays_as_zero 1 true (by decide) (by norm_num)⟩

/-! ### Claim C6 -/

/-- Helper for claim C6: a successful chunk accumulation returns the
whole body and never more than the 8 MiB cap (plus whatever was already
accumulated). -/
theorem accumChunks_eq_some (cs : List (List Nat)) :
    ∀ acc d, accumChunks cs acc = some d →
      d = acc ++ cs.flatten ∧ d.length ≤ max maxImageSize acc.length := by
  induction cs with
  | nil =>
    intro acc d h
    have hd : acc = d := by
      have h' : some acc = some d := h
      exact Option.some.inj h'
    subst hd
    simp
  | cons c cs ih =>
    intro acc d h
    unfold accumChunks at h
    by_cases hlen : maxImageSize < (acc ++ c).length
    · rw [if_pos hlen] at h; cases h
    · rw [if_neg hlen] at h
      obtain ⟨hd, hle⟩ := ih (acc ++ c) d h
      refine ⟨by rw [hd]; simp, ?_⟩
      have hmax : max maxImageSize (acc ++ c).length = maxImageSize :=
        Nat.max_eq_left (Nat.le_of_not_lt hlen)
      rw [hmax] at hle
      exact le_trans hle (Nat.le_max_left _ _)

/-- Claim C6: `download_image` returns `none` (never raises, never returns
partial data) whenever the response status is not 200, the body exceeds
the 8 MiB cap, the body is smaller than 100 bytes, the declared
content-type contains "video", or the byte stream's prefix matches the
MP4/WebM magic numbers, even when the content-type claims an image; a
transport exception (`none` response) also yields `none`, and any
successful result is the complete body. -/
theorem claim_C6_download_image_rejections (url : String) (resp : HttpResponse) :
    download_image url none = none ∧
    (∀ d, download_image url (some resp) = some d → d = resp.chunks.flatten) ∧
    ((resp.status ≠ 200 ∨
        maxImageSize < resp.chunks.flatten.length ∨
        resp.chunks.flatten.length < 100 ∨
        containsSub (pyLower resp.contentType) "video" = true ∨
        mp4Magic.isPrefixOf resp.chunks.flatten = true ∨
        webmMagic.isPrefixOf resp.chunks.flatten = true) →
      download_image url (some resp) = none) := by
  have haccCases :
      accumChunks resp.chunks [] = none ∨
        accumChunks resp.chunks [] = some resp.chunks.flatten := by
    cases hacc : accumChunks resp.chunks [] with
    | none => exact Or.inl rfl
    | some d =>
      obtain ⟨hd, -⟩ := accumChunks_eq_some resp.chunks [] d hacc
      rw [List.nil_append] at hd
      subst hd
      exact Or.inr rfl
  have hcheckNone : ∀ d, checkBody resp.contentType url d = none ∨
      checkBody resp.contentType url d = some d := by
    intro d
    unfold checkBody
    split_ifs <;> simp
  refine ⟨rfl, ?_, ?_⟩
  · intro d hd
    simp only [download_image] at hd
    by_cases hs : resp.status = 200
    · rw [if_pos hs] at hd
      rcases haccCases with hacc | hacc <;> rw [hacc] at hd
      · cases hd
      · rw [Option.some_bind] at hd
        rcases hcheckNone resp.chunks.flatten with hc | hc <;> rw [hc] at hd
        · cases hd
        · exact (Option.some.inj hd).symm
    · rw [if_neg hs] at hd; cases hd
  · intro hrej
    simp only [download_image]
    by_cases hs : resp.status = 200
    · rw [if_pos hs]
      rcases hrej with h | h | h | h | h | h
      · exact absurd hs h
      · -- body larger than the cap: accumulation must have aborted
        have hacc : accumChunks resp.chunks [] = none := by
          rcases haccCases with hn | hsome
          · exact hn
          · obtain ⟨-, hle⟩ := accumChunks_eq_some resp.chunks [] _ hsome
            rw [List.length_nil, Nat.max_zero] at hle
            omega
        rw [hacc, Option.none_bind]
      · rcases haccCases with hn | hsome
        · rw [hn, Option.none_bind]
        · rw [hsome, Option.some_bind]
          unfold checkBody
          split_ifs <;> rfl
      · rcases haccCases with hn | hsome
        · rw [hn, Option.none_bind]
        · rw [hsome, Option.some_bind]
          unfold checkBody
          rw [if_pos h]
      · rcases haccCases with hn | hsome
        · rw [hn, Option.none_bind]
        · rw [hsome, Option.some_bind]
          unfold checkBody
          split_ifs with h1 h2 h3
          · rfl
          · rfl
          · rfl
          · exact absurd (by simp [isVideoFile, h]) h3
      · rcases haccCases with hn | hsome
        · rw [hn, Option.none_bind]
        · rw [hsome, Option.some_bind]
          unfold checkBody
          split_ifs with h1 h2 h3
          · rfl
          · rfl
          · rfl
          · exact absurd (by simp [isVideoFile, h]) h3
    · rw [if_neg hs]

/-- Witness for claim C6: a 200 response whose content-type claims PNG but
whose body opens with the MP4 magic bytes is rejected. -/
theorem claim_C6_download_image_rejections_witness :
    download_image "https://example.com/a.png"
      (some { status := 200, contentType := "image/png",
              chunks := [mp4Magic ++ List.replicate 200 0] }) = none :=
  (claim_C6_download_image_rejections "https://example.com/a.png"
      { status := 200, contentType := "image/png",
        chunks := [mp4Magic ++ List.replicate 200 0] }).2.2
    (Or.inr (Or.inr (Or.inr (Or.inr (Or.inl (by decide))))))

/-! ### Claims C7 and C8 -/

/-- Claim C7: when every incoming event's sender or recipient is the zero
address, aggregation discards everything as mint/burn, produces no
`SaleEvent`, posts no notification, and leaves the processed set
unchanged. -/
theorem claim_C7_mint_burn_yields_no_sale (nftContract : String)
    (processed : List String) (env : BotEnv) (tx_hash : String)
    (events : List WebhookEvent)
    (hall : ∀ e ∈ events, pyLower (e.fromAddress?.getD "") = zeroAddress ∨
        pyLower (e.toAddress?.getD "") = zeroAddress) :
    process_webhook_events_grouped nftContract processed env tx_hash events =
      (none, processed) := by
  simp only [process_webhook_events_grouped]
  by_cases hmem : pyLower tx_hash ∈ processed
  · rw [if_pos hmem]
  · rw [if_neg hmem]
    by_cases hce : events.filter (fun e => effectiveContract e = nftContract) = []
    · rw [if_pos hce]
    · rw [if_neg hce]
      have hkept : keptEvents (events.filter (fun e => effectiveContract e = nftContract)) = [] := by
        unfold keptEvents
        rw [List.filter_eq_nil_iff]
        intro e he
        have he' : e ∈ events := List.mem_of_mem_filter he
        rcases hall e he' with h | h <;> simp [isMintOrBurn, h]
      have htok : tokenIdsOf (events.filter (fun e => effectiveContract e = nftContract)) = [] := by
        unfold tokenIdsOf
        rw [hkept]
        rfl
      rw [if_pos htok]

/-- Witness for claim C7: one mint event (sender is the zero address) on
the configured contract produces no sale and no state change. -/
theorem claim_C7_mint_burn_yields_no_sale_witness :
    process_webhook_events_grouped "0xc0ffee" ["0xaa"] ⟨(5, false), true⟩ "0xTx1"
      [{ logAddress? := some "0xc0ffee", contractAddress? := none,
         fromAddress? := some zeroAddress, toAddress? := some "0x2222",
         erc721TokenId? := some "7", erc1155TokenIds := [], topTokenId? := none }] =
      (none, ["0xaa"]) :=
  claim_C7_mint_burn_yields_no_sale "0xc0ffee" ["0xaa"] ⟨(5, false), true⟩ "0xTx1"
    [{ logAddress? := some "0xc0ffee", contractAddress? := none,
       fromAddress? := some zeroAddress, toAddress? := some "0x2222",
       erc721TokenId? := some "7", erc1155TokenIds := [], topTokenId? := none }]
    (by intro e he; simp at he; subst he; left; decide)

/-- Helper for claim C8: a call that published a notification recorded the
lowercased transaction id at the head of the processed set. -/
theorem process_sent_records_tx (nftContract : String) (processed : List String)
    (env : BotEnv) (tx_hash : String) (events : List WebhookEvent)
    (hsent : (process_webhook_events_grouped nftContract processed env tx_hash
        events).1.isSome) :
    (process_webhook_events_grouped nftContract processed env tx_hash events).2 =
      pyLower tx_hash :: processed := by
  simp only [process_webhook_events_grouped] at hsent ⊢
  by_cases hmem : pyLower tx_hash ∈ processed
  · rw [if_pos hmem] at hsent; cases hsent
  · rw [if_neg hmem] at hsent ⊢
    by_cases hce : events.filter (fun e => effectiveContract e = nftContract) = []
    · rw [if_pos hce] at hsent; cases hsent
    · rw [if_neg hce] at hsent ⊢
      by_cases htok : tokenIdsOf (events.filter (fun e => effectiveContract e = nftContract)) = []
      · rw [if_pos htok] at hsent; cases hsent
      · rw [if_neg htok]

/-- Claim C8: aggregation is idempotent per transaction id,
case-insensitively.  Once a call has published a notification for
`tx_hash` (so its lowercased id is in the processed set), any later call
with the same id in any letter case returns immediately: no second
notification and no state change. -/
theorem claim_C8_dedup_idempotent_case_insensitive (nftContract : String)
    (processed : List String) (env env' : BotEnv) (tx_hash tx_hash' : String)
    (events events' : List WebhookEvent)
    (hcase : pyLower tx_hash' = pyLower tx_hash)
    (hsent : (process_webhook_events_grouped nftContract processed env tx_hash
        events).1.isSome) :
    process_webhook_events_grouped nftContract
        (process_webhook_events_grouped nftContract processed env tx_hash events).2
        env' tx_hash' events' =
      (none,
        (process_webhook_events_grouped nftContract processed env tx_hash events).2) := by
  have hrec := process_sent_records_tx nftContract processed env tx_hash events hsent
  rw [hrec]
  simp only [process_webhook_events_grouped]
  rw [if_pos]
  rw [hcase]
  exact List.mem_cons_self _ _

/-- Witness for claim C8: a successful first aggregation of `"0xAbCd"`
followed by a second call for `"0xABCD"` that is skipped. -/
theorem claim_C8_dedup_idempotent_case_insensitive_witness :
    process_webhook_events_grouped "0xc0ffee"
        (process_webhook_events_grouped "0xc0ffee" [] ⟨(5, false), true⟩ "0xAbCd"
          [{ logAddress? := some "0xc0ffee", contractAddress? := none,
             fromAddress? := some "0x1111", toAddress? := some "0x2222",
             erc721TokenId? := some "7", erc1155TokenIds := [], topTokenId? := none }]).2
        ⟨(9, true), true⟩ "0xABCD" [] =
      (none,
        (process_webhook_events_grouped "0xc0ffee" [] ⟨(5, false), true⟩ "0xAbCd"
          [{ logAddress? := some "0xc0ffee", contractAddress? := none,
             fromAddress? := some "0x1111", toAddress? := some "0x2222",
             erc721TokenId? := some "7", erc1155TokenIds := [], topTokenId? := none }]).2) :=
  claim_C8_dedup_idempotent_case_insensitive "0xc0ffee" [] ⟨(5, false), true⟩
    ⟨(9, true), true⟩ "0xAbCd" "0xABCD"
    [{ logAddress? := some "0xc0ffee", contractAddress? := none,
       fromAddress? := some "0x1111", toAddress? := some "0x2222",
       erc721TokenId? := some "7", erc1155TokenIds := [], topTokenId? := none }]
    [] (by decide) (by decide)

/-! ### Claims C1, C3, C4 -/

/-- Claim C1: a transaction with a positive native-currency value resolves
to exactly that value as native currency, regardless of the receipt logs
and transfer lists in the environment (the return happens before any
wrapped-token strategy runs). -/
theorem claim_C1_native_value_short_circuits (env : PriceEnv) (tx_hash : String)
    (seller? buyer? : Option String) (tx : EthTx) (v : Int)
    (htx : env.tx? = some tx)
    (hv : pyIntHex? (tx.value?.getD "0x0") = some v)
    (hpos : 0 < v) :
    _get_transaction_price_simple env tx_hash seller? buyer? = (v, false) := by
  have hne : tx.value?.getD "0x0" ≠ "0x0" := by
    intro h
    rw [h] at hv
    have h0 : pyIntHex? "0x0" = some 0 := by decide
    rw [h0] at hv
    have hv0 : (0 : Int) = v := Option.some.inj hv
    omega
  have hev : ethValueOf tx = some v := by
    unfold ethValueOf
    rw [if_neg hne, hv]
  simp only [_get_transaction_price_simple, htx, hev]
  rw [if_pos hpos]

/-- Witness for claim C1: native value `0x64` resolves to `(100, false)`
even though a WETH transfer is present in the range list. -/
theorem claim_C1_native_value_short_circuits_witness :
    _get_transaction_price_simple
        { tx? := some { value? := some "0x64", blockNumber? := some "0x100" },
          receipt? := none, directTransfers := [], buyerTransfers := [],
          rangeTransfers :=
            [{ hash? := some "0xmain", fromAddr? := some "0xbbb2",
               toAddr? := some "0xaaa1", value? := some "0xc8",
               blockNum? := some "0x100" }] }
        "0xmain" (some "0xaaa1") (some "0xbbb2") = (100, false) :=
  claim_C1_native_value_short_circuits
    { tx? := some { value? := some "0x64", blockNumber? := some "0x100" },
      receipt? := none, directTransfers := [], buyerTransfers := [],
      rangeTransfers :=
        [{ hash? := some "0xmain", fromAddr? := some "0xbbb2",
           toAddr? := some "0xaaa1", value? := some "0xc8",
           blockNum? := some "0x100" }] }
    "0xmain" (some "0xaaa1") (some "0xbbb2")
    { value? := some "0x64", blockNumber? := some "0x100" } 100
    rfl (by decide) (by decide)

/-- Helper for claim C3: a foldl over transfers none of which satisfies
the accumulation condition leaves the accumulator unchanged. -/
theorem strategy0_foldl_const (s : String) :
    ∀ (l : List WethTransfer) (acc : Int),
      (∀ w ∈ l, ¬(w.toA = s ∧ 0 < w.amount)) →
      l.foldl (fun acc w => if w.toA = s ∧ 0 < w.amount then acc + w.amount else acc)
        acc = acc := by
  intro l
  induction l with
  | nil => intro acc _; rfl
  | cons w ws ih =>
    intro acc h
    have hw := h w (List.mem_cons_self _ _)
    simp only [List.foldl_cons, if_neg hw]
    exact ih acc (fun u hu => h u (List.mem_cons_of_mem _ hu))

/-- Helper for claim C3: the maximum amount of a nonempty list of positive
transfers is positive. -/
theorem maxAmount_pos :
    ∀ l : List WethTransfer, l ≠ [] → (∀ w ∈ l, 0 < w.amount) → 0 < maxAmount l := by
  intro l
  induction l with
  | nil => intro h _; exact absurd rfl h
  | cons w ws _ =>
    intro _ hall
    have hw : 0 < w.amount := hall w (List.mem_cons_self _ _)
    unfold maxAmount
    exact lt_max_iff.mpr (Or.inr hw)

/-- Claim C3: with zero native value and a receipt holding one or more
positive WETH Transfer logs, none of which pays the seller, the resolver
returns the largest such transfer's amount as wrapped currency. -/
theorem claim_C3_largest_wrapped_transfer_fallback (env : PriceEnv)
    (tx_hash : String) (seller? buyer? : Option String) (tx : EthTx)
    (bh : String) (bn : Int) (receipt : EthReceipt)
    (htx : env.tx? = some tx)
    (hev : ethValueOf tx = some 0)
    (hbh : tx.blockNumber? = some bh) (hbne : bh ≠ "")
    (hbn : pyIntHex? bh = some bn)
    (hrc : env.receipt? = some receipt)
    (hne : strategy0All receipt.logs ≠ [])
    (hnosell : ∀ w ∈ strategy0All receipt.logs,
        normAddr seller? ≠ some w.toA) :
    _get_transaction_price_simple env tx_hash seller? buyer? =
      (maxAmount (strategy0All receipt.logs), true) := by
  have hallpos : ∀ w ∈ strategy0All receipt.logs, 0 < w.amount := by
    intro w hw
    have := (List.mem_filter.mp hw).2
    exact of_decide_eq_true this
  have hst : strategy0SellerTotal (normAddr seller?) receipt.logs = 0 := by
    unfold strategy0SellerTotal
    cases hs : normAddr seller? with
    | none => rfl
    | some s =>
      apply strategy0_foldl_const
      intro w hw
      rintro ⟨hto, hpos⟩
      have hmem : w ∈ strategy0All receipt.logs :=
        List.mem_filter.mpr ⟨hw, decide_eq_true hpos⟩
      exact hnosell w hmem (by rw [hs, hto])
  have htot : strategy0Total (normAddr seller?) receipt.logs =
      maxAmount (strategy0All receipt.logs) := by
    unfold strategy0Total
    rw [if_pos ⟨hst, hne⟩]
  have hmax : 0 < maxAmount (strategy0All receipt.logs) :=
    maxAmount_pos _ hne hallpos
  simp only [_get_transaction_price_simple, htx, hev]
  rw [if_neg (lt_irrefl (0 : Int))]
  simp only [hbh]
  rw [if_neg hbne]
  simp only [hbn, hrc, htot]
  rw [if_pos hmax]

/-- Witness for claim C3: three WETH transfers of 100, 250 and 30 wei to
addresses other than the seller resolve to `(250, true)`. -/
theorem claim_C3_largest_wrapped_transfer_fallback_witness :
    _get_transaction_price_simple
        { tx? := some { value? := some "0x0", blockNumber? := some "0x64" },
          receipt? := some { logs :=
            [{ address := WETH_CONTRACT,
               topics := [transferEventTopic,
                 "0x0000000000000000000000001111111111111111111111111111111111111111",
                 "0x0000000000000000000000002222222222222222222222222222222222222222"],
               data? := some "0x64" },
             { address := WETH_CONTRACT,
               topics := [transferEventTopic,
                 "0x0000000000000000000000003333333333333333333333333333333333333333",
                 "0x0000000000000000000000004444444444444444444444444444444444444444"],
               data? := some "0xfa" },
             { address := WETH_CONTRACT,
               topics := [transferEventTopic,
                 "0x0000000000000000000000005555555555555555555555555555555555555555",
                 "0x0000000000000000000000006666666666666666666666666666666666666666"],
               data? := some "0x1e" }] },
          directTransfers := [], buyerTransfers := [], rangeTransfers := [] }
        "0xmain" (some "0x9999999999999999999999999999999999999999") none =
      (250, true) := by
  have h := claim_C3_largest_wrapped_transfer_fallback
    { tx? := some { value? := some "0x0", blockNumber? := some "0x64" },
      receipt? := some { logs :=
        [{ address := WETH_CONTRACT,
           topics := [transferEventTopic,
             "0x0000000000000000000000001111111111111111111111111111111111111111",
             "0x0000000000000000000000002222222222222222222222222222222222222222"],
           data? := some "0x64" },
         { address := WETH_CONTRACT,
           topics := [transferEventTopic,
             "0x0000000000000000000000003333333333333333333333333333333333333333",
             "0x0000000000000000000000004444444444444444444444444444444444444444"],
           data? := some "0xfa" },
         { address := WETH_CONTRACT,
           topics := [transferEventTopic,
             "0x0000000000000000000000005555555555555555555555555555555555555555",
             "0x0000000000000000000000006666666666666666666666666666666666666666"],
           data? := some "0x1e" }] },
      directTransfers := [], buyerTransfers := [], rangeTransfers := [] }
    "0xmain" (some "0x9999999999999999999999999999999999999999") none
    { value? := some "0x0", blockNumber? := some "0x64" } "0x64" 100
    { logs :=
        [{ address := WETH_CONTRACT,
           topics := [transferEventTopic,
             "0x0000000000000000000000001111111111111111111111111111111111111111",
             "0x0000000000000000000000002222222222222222222222222222222222222222"],
           data? := some "0x64" },
         { address := WETH_CONTRACT,
           topics := [transferEventTopic,
             "0x0000000000000000000000003333333333333333333333333333333333333333",
             "0x0000000000000000000000004444444444444444444444444444444444444444"],
           data? := some "0xfa" },
         { address := WETH_CONTRACT,
           topics := [transferEventTopic,
             "0x0000000000000000000000005555555555555555555555555555555555555555",
             "0x0000000000000000000000006666666666666666666666666666666666666666"],
           data? := some "0x1e" }] }
    rfl (by decide) rfl (by decide) (by decide) rfl (by decide)
    (by decide)
  exact h.trans (by decide)

/-- Helper for claim C4: every resolver result is either the exact
`(0, false)` sentinel or has a positive amount. -/
theorem price_simple_shape (env : PriceEnv) (tx_hash : String)
    (seller? buyer? : Option String) :
    _get_transaction_price_simple env tx_hash seller? buyer? = (0, false) ∨
      0 < (_get_transaction_price_simple env tx_hash seller? buyer?).1 := by
  simp only [_get_transaction_price_simple]
  split
  · exact Or.inl rfl
  · split
    · exact Or.inl rfl
    · split
      · rename_i hev
        exact Or.inr hev
      · split
        · exact Or.inl rfl
        · split
          · exact Or.inl rfl
          · split
            · exact Or.inl rfl
            · split
              · rename_i h
                exact Or.inr h
              · split
                · rename_i h
                  exact Or.inr h
                · exact Or.inl rfl

/-- Claim C4: the resolver never returns a negative amount (and, being a
total function of its observed environment, never raises); any
non-positive outcome is exactly the `(0, false)` sentinel, and the
unresolvable conditions — transaction not found, unparseable value field,
missing block number with zero value — each return `(0, false)`. -/
theorem claim_C4_never_negative_sentinel (env : PriceEnv) (tx_hash : String)
    (seller? buyer? : Option String) :
    0 ≤ (_get_transaction_price_simple env tx_hash seller? buyer?).1 ∧
    ((_get_transaction_price_simple env tx_hash seller? buyer?).1 ≤ 0 →
      _get_transaction_price_simple env tx_hash seller? buyer? = (0, false)) ∧
    (env.tx? = none →
      _get_transaction_price_simple env tx_hash seller? buyer? = (0, false)) ∧
    (∀ tx, env.tx? = some tx → ethValueOf tx = none →
      _get_transaction_price_simple env tx_hash seller? buyer? = (0, false)) ∧
    (∀ tx ev, env.tx? = some tx → ethValueOf tx = some ev → ev ≤ 0 →
      tx.blockNumber? = none →
      _get_transaction_price_simple env tx_hash seller? buyer? = (0, false)) := by
  have hshape := price_simple_shape env tx_hash seller? buyer?
  refine ⟨?_, ?_, ?_, ?_, ?_⟩
  · rcases hshape with h | h
    · rw [h]
    · exact le_of_lt h
  · intro hle
    rcases hshape with h | h
    · exact h
    · omega
  · intro h
    simp only [_get_transaction_price_simple, h]
  · intro tx htx hev
    simp only [_get_transaction_price_simple, htx, hev]
  · intro tx ev htx hev hle hbn
    simp only [_get_transaction_price_simple, htx, hev, hbn]
    rw [if_neg (by omega)]

/-- Witness for claim C4 at an environment with no transaction. -/
theorem claim_C4_never_negative_sentinel_witness :
    _get_transaction_price_simple ⟨none, none, [], [], []⟩ "0xdead" none none =
        (0, false) ∧
      0 ≤ (_get_transaction_price_simple ⟨none, none, [], [], []⟩ "0xdead" none none).1 :=
  ⟨(claim_C4_never_negative_sentinel ⟨none, none, [], [], []⟩ "0xdead" none none).2.2.1 rfl,
   (claim_C4_never_negative_sentinel ⟨none, none, [], [], []⟩ "0xdead" none none).1⟩

/-! ### Claim C2 -/

/-- Counterexample to claim C2 as stated: two wrapped-token transfers
from distinct transactions (`0xh1`, `0xh2`, neither equal to the resolved
transaction `0xmain`) both match only by buyer→seller address and block
proximity (blocks 101 and 99 around 100), yet the resolver returns their
sum 300 = 100 + 200 — not the first match's amount.  Proximity-only
matches are therefore summed, contradicting "first match wins". -/
theorem claim_C2_counterexample_proximity_matches_summed :
    _get_transaction_price_simple
        { tx? := some { value? := some "0x0", blockNumber? := some "0x64" },
          receipt? := none,
          directTransfers :=
            [{ hash? := some "0xh1", fromAddr? := some "0xbbb2",
               toAddr? := some "0xaaa1", value? := some "0x64",
               blockNum? := some "0x65" },
             { hash? := some "0xh2", fromAddr? := some "0xbbb2",
               toAddr? := some "0xaaa1", value? := some "0xc8",
               blockNum? := some "0x63" }],
          buyerTransfers := [], rangeTransfers := [] }
        "0xmain" (some "0xaaa1") (some "0xbbb2") = (300, true) ∧
      (300 : Int) ≠ 100 ∧ (300 : Int) ≠ 200 :=
  ⟨by decide, by decide, by decide⟩

/-- Claim C2, amended: in the final block-range fallback, qualifying
matches are *all* summed — transfers matched only by buyer→seller address
and block proximity contribute their amounts alongside exact
transaction-id matches; there is no first-match-wins rule.  Stated here
for two proximity-qualifying transfers of positive amounts `a1`, `a2`:
the resolver returns `(a1 + a2, true)`. -/
theorem claim_C2_amended_all_matches_summed (env : PriceEnv)
    (tx_hash seller buyer : String) (tx : EthTx) (bh : String)
    (bn : Int) (t1 t2 : AssetTransfer) (a1 a2 bn1 bn2 : Int)
    (htx : env.tx? = some tx)
    (hev : ethValueOf tx = some 0)
    (hbh : tx.blockNumber? = some bh) (hbne : bh ≠ "")
    (hbn : pyIntHex? bh = some bn)
    (hrc : env.receipt? = none)
    (hs : seller ≠ "") (hb : buyer ≠ "")
    (hdir : env.directTransfers = [t1, t2])
    (hrange : env.rangeTransfers = [])
    (h1hash : pyLower (t1.hash?.getD "") ≠ pyLower tx_hash)
    (h1from : pyLower (t1.fromAddr?.getD "") = pyLower buyer)
    (h1to : pyLower (t1.toAddr?.getD "") = pyLower seller)
    (h1vne : t1.value?.getD "0x0" ≠ "") (h1v0 : t1.value?.getD "0x0" ≠ "0x0")
    (h1a : pyIntHex? (t1.value?.getD "0x0") = some a1) (h1pos : 0 < a1)
    (h1bne : t1.blockNum?.getD "" ≠ "")
    (h1bn : pyParseBlock (t1.blockNum?.getD "") = some bn1)
    (h1near : (bn1 - bn).natAbs ≤ 5)
    (h2hash : pyLower (t2.hash?.getD "") ≠ pyLower tx_hash)
    (h2from : pyLower (t2.fromAddr?.getD "") = pyLower buyer)
    (h2to : pyLower (t2.toAddr?.getD "") = pyLower seller)
    (h2vne : t2.value?.getD "0x0" ≠ "") (h2v0 : t2.value?.getD "0x0" ≠ "0x0")
    (h2a : pyIntHex? (t2.value?.getD "0x0") = some a2) (h2pos : 0 < a2)
    (h2bne : t2.blockNum?.getD "" ≠ "")
    (h2bn : pyParseBlock (t2.blockNum?.getD "") = some bn2)
    (h2near : (bn2 - bn).natAbs ≤ 5) :
    _get_transaction_price_simple env tx_hash (some seller) (some buyer) =
      (a1 + a2, true) := by
  have hsl : normAddr (some seller) = some (pyLower seller) := by
    simp only [normAddr]
    rw [if_neg hs]
  have hbl : normAddr (some buyer) = some (pyLower buyer) := by
    simp only [normAddr]
    rw [if_neg hb]
  have hc1 : transferContribution tx_hash (some (pyLower seller))
      (some (pyLower buyer)) bn t1 = a1 := by
    simp only [transferContribution]
    rw [if_pos ⟨h1vne, h1v0⟩]
    simp only [h1a]
    rw [if_neg (fun h => h1hash h.2)]
    rw [if_pos ⟨h1from, h1to⟩]
    rw [if_pos h1bne]
    simp only [h1bn]
    rw [if_pos h1near]
  have hc2 : transferContribution tx_hash (some (pyLower seller))
      (some (pyLower buyer)) bn t2 = a2 := by
    simp only [transferContribution]
    rw [if_pos ⟨h2vne, h2v0⟩]
    simp only [h2a]
    rw [if_neg (fun h => h2hash h.2)]
    rw [if_pos ⟨h2from, h2to⟩]
    rw [if_pos h2bne]
    simp only [h2bn]
    rw [if_pos h2near]
  have hts : transfersList env (some (pyLower seller)) (some (pyLower buyer)) =
      [t1, t2] := by
    simp only [transfersList, hdir, hrange]
    simp
  have hmain : mainLoopTotal tx_hash (some (pyLower seller))
      (some (pyLower buyer)) bn [t1, t2] = a1 + a2 := by
    simp only [mainLoopTotal, List.foldl]
    rw [hc1, hc2]
    omega
  simp only [_get_transaction_price_simple, htx, hev]
  rw [if_neg (lt_irrefl (0 : Int))]
  simp only [hbh]
  rw [if_neg hbne]
  simp only [hbn, hrc, hsl, hbl, hts, hmain]
  rw [if_neg (lt_irrefl (0 : Int)), if_pos (by omega : (0 : Int) < a1 + a2)]

/-- Witness for the amended claim C2 at the counterexample input. -/
theorem claim_C2_amended_all_matches_summed_witness :
    _get_transaction_price_simple
        { tx? := some { value? := some "0x0", blockNumber? := some "0x64" },
          receipt? := none,
          directTransfers :=
            [{ hash? := some "0xh1", fromAddr? := some "0xbbb2",
               toAddr? := some "0xaaa1", value? := some "0x64",
               blockNum? := some "0x65" },
             { hash? := some "0xh2", fromAddr? := some "0xbbb2",
               toAddr? := some "0xaaa1", value? := some "0xc8",
               blockNum? := some "0x63" }],
          buyerTransfers := [], rangeTransfers := [] }
        "0xmain" (some "0xaaa1") (some "0xbbb2") = (100 + 200, true) :=
  claim_C2_amended_all_matches_summed
    { tx? := some { value? := some "0x0", blockNumber? := some "0x64" },
      receipt? := none,
      directTransfers :=
        [{ hash? := some "0xh1", fromAddr? := some "0xbbb2",
           toAddr? := some "0xaaa1", value? := some "0x64",
           blockNum? := some "0x65" },
         { hash? := some "0xh2", fromAddr? := some "0xbbb2",
           toAddr? := some "0xaaa1", value? := some "0xc8",
           blockNum? := some "0x63" }],
      buyerTransfers := [], rangeTransfers := [] }
    "0xmain" "0xaaa1" "0xbbb2"
    { value? := some "0x0", blockNumber? := some "0x64" }
    "0x64" 100
    { hash? := some "0xh1", fromAddr? := some "0xbbb2",
      toAddr? := some "0xaaa1", value? := some "0x64", blockNum? := some "0x65" }
    { hash? := some "0xh2", fromAddr? := some "0xbbb2",
      toAddr? := some "0xaaa1", value? := some "0xc8", blockNum? := some "0x63" }
    100 200 101 99
    rfl (by decide) rfl (by decide) (by decide) rfl (by decide) (by decide)
    rfl rfl
    (by decide) (by decide) (by decide) (by decide) (by decide) (by decide)
    (by decide) (by decide) (by decide) (by decide)
    (by decide) (by decide) (by decide) (by decide) (by decide) (by decide)
    (by decide) (by decide) (by decide) (by decide)

end RoversSalesBot
